import Mathlib

/-!
Verification of the connection/link lifecycle manager of a NestJS AMQP
integration (`src/lib/services/amqp.service.ts`), shallowly embedded in Lean.

The embedding models:
* `AMQPService.createConnection` — initial open, the bounded do-while retry
  loop (`initial_reconnect_delay ?? 3000`, `reconnect_limit ?? 3`), the value
  the returned promise resolves with, and the bus events it emits;
* the `ConnectionEvents.disconnected` handler — one
  `AMQP_CONNECTION_DISCONNECTED` bus emission per event;
* the `ConnectionEvents.connectionClose` handler — a single `setTimeout` of
  1000 ms whose callback dispatches a synthesized `disconnected` event and
  performs exactly one reopen attempt, emitting `AMQP_CONNECTION_RECONNECT`
  on success and only logging on failure;
* `AMQPService.createSender` — a `moduleRef` lookup of the connection token
  (throwing when the token is unregistered) followed by sender creation,
  with no check of the connection's state;
* `AMQPService.createReceiver` — initial `addCredit(credits)` and the
  `receiverOpen` top-up `if (currentCredits < credits) addCredit(credits -
  currentCredits)`, together with the credit-flow discipline of the
  transport (a peer may deliver only while it holds positive credit).
-/

namespace AMQP

/-- Bus events emitted on `AMQPService.eventEmitter`
(`AMQP_CONNECTION_DISCONNECTED`, `AMQP_CONNECTION_RECONNECT`). -/
inductive BusEvent where
  | CONNECTION_DISCONNECTED
  | CONNECTION_RECONNECT
deriving DecidableEq, Repr

/-- Log severities used by the service's logger. -/
inductive LogSeverity where
  | silly
  | warn
  | error
deriving DecidableEq, Repr

/-- A `rhea-promise` connection, abstracted to the one observable the service
consults: `connection.isOpen()`. -/
structure Connection where
  isOpen : Bool
deriving DecidableEq, Repr

/-- The `connectionOptions` sub-object of the module options: only the two
fields the service reads (`initial_reconnect_delay`, `reconnect_limit`).
`none` models an absent (`undefined`) field, so that `?? default` is
`Option.getD`. -/
structure ConnectionOptions where
  initial_reconnect_delay : Option Nat := none
  reconnect_limit : Option Nat := none
deriving DecidableEq, Repr

/-- `AMQPModuleOptions`: a connection name, an optional URI and optional
connection options. The URI only contributes transport parameters and is
irrelevant to the control flow modelled here. -/
structure AMQPModuleOptions where
  name : Option String := none
  connectionUri : Option String := none
  connectionOptions : Option ConnectionOptions := none
deriving DecidableEq, Repr

/-- Modelled from the spec: `getConnectionToken` lives in `src/lib/utils`,
which is not under `src/`. The spec describes the token as a string key per
logical broker target, resolved as `options.connectionName ?? default`
(§3, §4.5); it is a total function of the optional name. -/
def getConnectionToken (name : Option String) : String :=
  name.getD "default"

/-- The connection token `createConnection` derives from its (possibly null)
options argument, before the null check runs. -/
def getConnectionTokenOfOptions (options : Option AMQPModuleOptions) : String :=
  getConnectionToken (options.bind (·.name))

/-- The `ConnectionEvents.disconnected` handler
(`amqp.service.ts` lines 46-53): logs a warning, then emits
`AMQP_CONNECTION_DISCONNECTED` on the event emitter exactly once. -/
def disconnectedHandler : List BusEvent :=
  [.CONNECTION_DISCONNECTED]

/-- What the `setTimeout` callback installed by the `connectionClose` handler
does, as a function of whether the single `context.connection.open()` it
performs succeeds. -/
structure TimeoutCallbackResult where
  /-- Bus events emitted by the callback, in order. -/
  emits : List BusEvent
  /-- Number of `connection.open()` calls the callback performs. -/
  openAttempts : Nat
  /-- Delays (ms) of any further timeouts the callback schedules. -/
  newTimeouts : List Nat
deriving DecidableEq, Repr

/-- The callback body of the `connectionClose` handler's `setTimeout`
(`amqp.service.ts` lines 61-75): it dispatches a synthesized `disconnected`
event on the underlying connection (running `disconnectedHandler`), then
awaits one `open()`; `.then` emits `AMQP_CONNECTION_RECONNECT`, `.catch`
only logs the error, and `clearTimeout` ends the callback — no further
timeout is ever scheduled. -/
def connectionCloseCallback (reopenSucceeds : Bool) : TimeoutCallbackResult :=
  { emits := disconnectedHandler ++
      (if reopenSucceeds then [.CONNECTION_RECONNECT] else [])
    openAttempts := 1
    newTimeouts := [] }

/-- The synchronous part of the `ConnectionEvents.connectionClose` handler
(`amqp.service.ts` lines 54-77): it logs at `error` severity when the event
context carries an error message and at `warn` otherwise, and in either case
schedules `connectionCloseCallback` after a fixed 1000 ms. -/
def connectionCloseHandler (hasErrorContext : Bool) : LogSeverity × Nat :=
  (if hasErrorContext then .error else .warn, 1000)

/-- Transport-level events a live connection can receive, as far as the
registered handlers distinguish them: a peer-initiated transport disconnect,
and a connection close whose recovery reopen either succeeds or fails. -/
inductive TransportEvent where
  | disconnected
  | connectionClose (reopenSucceeds : Bool)
deriving DecidableEq, Repr

/-- Bus events produced by the handlers in reaction to one transport event.
A `connectionClose` leads (via the 1000 ms timeout callback) to the
synthesized `disconnected` dispatch followed, on success, by the reconnect
emission. -/
def processEvent : TransportEvent → List BusEvent
  | .disconnected => disconnectedHandler
  | .connectionClose ok => (connectionCloseCallback ok).emits

/-- Bus events produced by a sequence of transport events, in order. -/
def processTrace (tr : List TransportEvent) : List BusEvent :=
  tr.flatMap processEvent

/-! ### createConnection -/

/-- The do-while retry loop of `createConnection` (`amqp.service.ts` lines
83-98), entered after the initial `open()` rejected.  `ok k` tells whether
the `k`-th reopen attempt (1-based, i.e. the value of `retry` after the
`retry++`) succeeds.  Returns the number of reopen attempts performed and
whether one succeeded (in which case the code emits
`AMQP_CONNECTION_RECONNECT` and executes a bare `return;`).  The loop
condition is `retry < reconnect_limit && !connection.isOpen()`.  `fuel`
bounds the recursion; `reconnect_limit + 1` suffices. -/
def openRetryLoop (ok : Nat → Bool) (limit : Nat) : Nat → Nat → Nat × Bool
  | _, 0 => (0, false)
  | k, fuel + 1 =>
    if ok k then (1, true)
    else if k < limit then
      let r := openRetryLoop ok limit (k + 1) fuel
      (r.1 + 1, r.2)
    else (1, false)

/-- The observable outcome of one `createConnection` call. -/
structure CCOutcome where
  /-- `.error msg` when the call rejects; `.ok v` when the promise resolves,
  where `v = some c` resolves with connection `c` and `v = none` resolves
  with `undefined` (a bare `return;`). -/
  result : Except String (Option Connection)
  /-- Reopen attempts performed after the initial `open()` failed. -/
  reopenAttempts : Nat
  /-- The delays awaited before each reopen attempt, in order. -/
  delays : List Nat
  /-- Bus events emitted during the call itself. -/
  busEvents : List BusEvent
deriving Repr

/-- `AMQPService.createConnection` (`amqp.service.ts` lines 25-101), as a
function of its options argument (`none` models a null/undefined argument)
and an oracle `openOk` for the protocol-level opens: `openOk 0` is the
initial `open()`, `openOk k` for `k ≥ 1` the `k`-th reopen attempt.

Control flow of the source: compute the token, throw
`Invalid connection options: <token>` when `!options`; otherwise build the
connection, register the event handlers, and `try { await open() }`.  On
failure, run the do-while loop: each iteration awaits
`initial_reconnect_delay ?? 3000` ms then retries `open()`; on a successful
reopen it emits `AMQP_CONNECTION_RECONNECT` and executes a bare `return;`
(resolving with `undefined`); the loop exits after
`reconnect_limit ?? 3` failed attempts, after which `return connection`
resolves with the still-unopened connection. -/
def createConnection (options : Option AMQPModuleOptions) (openOk : Nat → Bool) :
    CCOutcome :=
  let token := getConnectionTokenOfOptions options
  match options with
  | none =>
    { result := .error ("Invalid connection options: " ++ token)
      reopenAttempts := 0, delays := [], busEvents := [] }
  | some o =>
    if openOk 0 then
      { result := .ok (some ⟨true⟩)
        reopenAttempts := 0, delays := [], busEvents := [] }
    else
      let d := (o.connectionOptions.bind (·.initial_reconnect_delay)).getD 3000
      let limit := (o.connectionOptions.bind (·.reconnect_limit)).getD 3
      let r := openRetryLoop openOk limit 1 (limit + 1)
      if r.2 then
        { result := .ok none
          reopenAttempts := r.1
          delays := List.replicate r.1 d
          busEvents := [.CONNECTION_RECONNECT] }
      else
        { result := .ok (some ⟨false⟩)
          reopenAttempts := r.1
          delays := List.replicate r.1 d
          busEvents := [] }

/-! ### createSender -/

/-- `CreateSenderOptions`: the fields `createSender` reads (`senderOptions`
only feeds the transport and is irrelevant to the control flow). -/
structure CreateSenderOptions where
  connectionName : Option String := none
deriving DecidableEq, Repr

/-- An `AwaitableSender`, abstracted to the connection it was created on. -/
structure AwaitableSender where
  connection : Connection
deriving DecidableEq, Repr

/-- `this.moduleRef.get<Connection>(connectionToken, { strict: false })`:
Nest's provider lookup.  It throws when the token is not registered and
returns the registered instance otherwise; it never inspects the instance's
state and never creates a connection. -/
def moduleRefGet (registry : String → Option Connection) (token : String) :
    Except String Connection :=
  match registry token with
  | some c => .ok c
  | none => .error ("Nest could not find the element " ++ token)

/-- `AMQPService.createSender` (`amqp.service.ts` lines 107-129): resolve the
token from `connectionName`, look the connection up in the DI container, and
create an awaitable sender on whatever connection the lookup returned.  The
remaining statements only attach logging listeners. -/
def createSender (registry : String → Option Connection)
    (options : CreateSenderOptions) : Except String AwaitableSender :=
  match moduleRefGet registry (getConnectionToken options.connectionName) with
  | .error e => .error e
  | .ok connection => .ok ⟨connection⟩

/-! ### createReceiver and receiver credit -/

/-- `receiver.addCredit(delta)`: grants `delta` additional units of link
credit. -/
def addCredit (credit delta : Int) : Int :=
  credit + delta

/-- The credit a receiver holds right after `createReceiver` ran
(`amqp.service.ts` lines 134-135): a fresh link has no credit and
`receiver.addCredit(credits)` is called once. -/
def createReceiverCredit (credits : Nat) : Int :=
  addCredit 0 credits

/-- The `ReceiverEvents.receiverOpen` handler (`amqp.service.ts` lines
136-144) as a function of the current credit: when `currentCredits <
credits` it calls `addCredit (credits - currentCredits)`; otherwise it
leaves the credit alone.  (The subtraction is over the integers, as in the
source.) -/
def receiverOpenHandler (credits : Nat) (currentCredits : Int) : Int :=
  if currentCredits < (credits : Int) then
    addCredit currentCredits ((credits : Int) - currentCredits)
  else currentCredits

/-- Credit-relevant events in the life of a receiver.  `delivery` is a
message transfer from the peer (the credit-based flow control of the
transport, §6 of the spec: a peer may transfer only while it holds positive
credit, and each transfer consumes one unit); `receiverOpen` is the link's
open confirmation; `disposition` settles a delivery — the handlers
registered by `createReceiver` for close/drain/flow/settled events only log
and leave the credit unchanged. -/
inductive ReceiverEvent where
  | delivery
  | receiverOpen
  | disposition
deriving DecidableEq, Repr

/-- The effect of one receiver event on the available credit. -/
def receiverStep (credits : Nat) (credit : Int) : ReceiverEvent → Int
  | .delivery => credit - 1
  | .receiverOpen => receiverOpenHandler credits credit
  | .disposition => credit

/-- The credit after a sequence of receiver events. -/
def runReceiver (credits : Nat) (credit : Int) : List ReceiverEvent → Int
  | [] => credit
  | e :: es => runReceiver credits (receiverStep credits credit e) es

/-- A protocol-valid event sequence: every delivery happens while the peer
holds positive credit (the transport's credit-flow discipline). -/
def validTrace (credits : Nat) (credit : Int) : List ReceiverEvent → Bool
  | [] => true
  | e :: es =>
    (e != .delivery || decide (0 < credit)) &&
      validTrace credits (receiverStep credits credit e) es

/-! ### Helper lemmas -/

/-- When every reopen attempt fails, the do-while loop performs
`limit + 1 - k` iterations starting from retry value `k` when `k ≤ limit`,
and (being a do-while) still one iteration when `k > limit`. -/
theorem openRetryLoop_allFail (ok : Nat → Bool) (limit : Nat)
    (h : ∀ k, ok k = false) :
    ∀ fuel k, limit < k + fuel → 0 < fuel →
      openRetryLoop ok limit k fuel = (max (limit + 1 - k) 1, false) := by
  intro fuel
  induction fuel with
  | zero => intro k _ hf; omega
  | succ fuel ih =>
    intro k hk _
    simp only [openRetryLoop, h k, Bool.false_eq_true, if_false]
    by_cases hkl : k < limit
    · rw [if_pos hkl, ih (k + 1) (by omega) (by omega)]
      have hmax : max (limit - k) 1 + 1 = max (limit + 1 - k) 1 := by
        omega
      simp [hmax]
    · rw [if_neg hkl]
      have hmax : max (limit + 1 - k) 1 = 1 := by omega
      simp [hmax]

/-- Credit bounds are preserved along any protocol-valid receiver trace. -/
theorem runReceiver_bounds (credits : Nat) :
    ∀ (tr : List ReceiverEvent) (credit : Int),
      0 ≤ credit → credit ≤ (credits : Int) →
      validTrace credits credit tr = true →
      0 ≤ runReceiver credits credit tr ∧
        runReceiver credits credit tr ≤ (credits : Int) := by
  intro tr
  induction tr with
  | nil => intro c h0 h1 _; exact ⟨h0, h1⟩
  | cons e es ih =>
    intro c h0 h1 hv
    simp only [validTrace, Bool.and_eq_true] at hv
    obtain ⟨hg, hv⟩ := hv
    simp only [runReceiver]
    cases e with
    | delivery =>
      have hc : 0 < c := by simpa using hg
      simp only [receiverStep] at hv ⊢
      exact ih (c - 1) (by omega) (by omega) hv
    | receiverOpen =>
      simp only [receiverStep, receiverOpenHandler, addCredit] at hv ⊢
      by_cases hlt : c < (credits : Int)
      · rw [if_pos hlt] at hv ⊢
        have heq : c + ((credits : Int) - c) = (credits : Int) := by ring
        rw [heq] at hv ⊢
        exact ih _ (by positivity) le_rfl hv
      · rw [if_neg hlt] at hv ⊢
        exact ih c h0 h1 hv
    | disposition =>
      simp only [receiverStep] at hv ⊢
      exact ih c h0 h1 hv

/-! ### Claim theorems -/

/-- C1: `createConnection`'s promise is declared `Promise<Connection>` and its
doc comment says `@returns connection`, so the claim — that every call with
non-null options resolves with the created `Connection`, also when a
bounded-retry reopen succeeds — is what the code promises.  The code breaks
it: when the initial `open()` fails and a reopen attempt succeeds, the bare
`return;` at line 92 resolves the promise with `undefined` (`.ok none` in
the model), not with the connection; the immediate-success path does resolve
with the connection. -/
theorem createConnection_retry_success_resolves_undefined :
    (createConnection (some {}) (fun k => k == 1)).result = .ok none ∧
    (createConnection (some {}) (fun _ => true)).result = .ok (some ⟨true⟩) :=
  ⟨rfl, rfl⟩

/-- C2 (amended): with `reconnect_limit = L` and every protocol-level open
failing, `createConnection` performs exactly `max L 1` reopen attempts after
the first failed open — the retry loop is a do-while, so it runs at least
once even when `L = 0` — and then resolves normally (never rejects) with the
still-unopened connection. -/
theorem createConnection_allFail_attempts (o : AMQPModuleOptions)
    (openOk : Nat → Bool) (h : ∀ k, openOk k = false) :
    (createConnection (some o) openOk).reopenAttempts
        = max ((o.connectionOptions.bind (·.reconnect_limit)).getD 3) 1 ∧
    (createConnection (some o) openOk).result = .ok (some ⟨false⟩) := by
  have hloop := openRetryLoop_allFail openOk
    ((o.connectionOptions.bind (·.reconnect_limit)).getD 3) h
    (((o.connectionOptions.bind (·.reconnect_limit)).getD 3) + 1) 1
    (by omega) (by omega)
  simp only [createConnection, h 0, Bool.false_eq_true, if_false, hloop]
  simp

/-- Witness for C2 at the default options (`reconnect_limit` absent, so
`L = 3`): three reopen attempts, resolving with the unopened connection. -/
theorem createConnection_allFail_attempts_witness :
    (createConnection (some {}) (fun _ => false)).reopenAttempts = 3 ∧
    (createConnection (some {}) (fun _ => false)).result = .ok (some ⟨false⟩) := by
  have := createConnection_allFail_attempts {} (fun _ => false) (fun _ => rfl)
  simpa using this

/-- Counterexample to C2 as stated: with `reconnect_limit = 0` and an
always-failing open, the do-while still performs one reopen attempt, not the
zero attempts the claim predicts. -/
theorem createConnection_limit_zero_still_retries :
    (createConnection
        (some { connectionOptions := some { reconnect_limit := some 0 } })
        (fun _ => false)).reopenAttempts = 1 ∧
    ¬ (createConnection
        (some { connectionOptions := some { reconnect_limit := some 0 } })
        (fun _ => false)).reopenAttempts = 0 := by
  decide

/-- C3: each peer-initiated transport disconnect runs the
`ConnectionEvents.disconnected` handler once, which emits
`AMQP_CONNECTION_DISCONNECTED` exactly once — over any trace of peer
disconnects, the number of emissions equals the number of disconnects,
never zero and never more than one per disconnect. -/
theorem disconnected_emits_exactly_once (tr : List TransportEvent)
    (h : ∀ e ∈ tr, e = .disconnected) :
    (processTrace tr).count .CONNECTION_DISCONNECTED = tr.length := by
  induction tr with
  | nil => rfl
  | cons e es ih =>
    have he : e = .disconnected := h e (List.mem_cons_self e es)
    subst he
    have htail := ih fun x hx => h x (List.mem_cons_of_mem _ hx)
    simp [processTrace, processEvent, disconnectedHandler, List.count_append] at htail ⊢
    omega

/-- Witness for C3: two peer disconnects produce exactly two
`AMQP_CONNECTION_DISCONNECTED` emissions. -/
theorem disconnected_emits_exactly_once_witness :
    (processTrace [.disconnected, .disconnected]).count
      .CONNECTION_DISCONNECTED = 2 := by
  have := disconnected_emits_exactly_once [.disconnected, .disconnected]
    (by decide)
  simpa using this

/-- C4 (amended): along the `connectionClose` recovery path — the path that
follows a peer-initiated disconnect — a successful reopen produces exactly
one `AMQP_CONNECTION_DISCONNECTED` (the synthesized `disconnected` dispatch)
followed by exactly one `AMQP_CONNECTION_RECONNECT`, in that order.  The
claim's parenthetical (`CONNECTION_RECONNECT` never without a preceding
`CONNECTION_DISCONNECTED`) does not hold globally: the bounded retry path of
`createConnection` also emits `CONNECTION_RECONNECT`, with no disconnect
emission (see the counterexample). -/
theorem connectionClose_reconnection_event_order :
    processEvent (.connectionClose true)
      = [.CONNECTION_DISCONNECTED, .CONNECTION_RECONNECT] :=
  rfl

/-- Counterexample to C4's parenthetical: when the initial `open()` fails and
the first bounded reopen succeeds, `createConnection` emits
`AMQP_CONNECTION_RECONNECT` while no `AMQP_CONNECTION_DISCONNECTED` was ever
emitted. -/
theorem reconnect_without_disconnected :
    (createConnection (some {}) (fun k => k == 1)).busEvents.count
        .CONNECTION_RECONNECT = 1 ∧
    (createConnection (some {}) (fun k => k == 1)).busEvents.count
        .CONNECTION_DISCONNECTED = 0 := by
  decide

/-- C5 (amended): after a `connectionClose` event — regardless of cause —
the handler schedules one timeout of a fixed 1000 ms whose callback performs
exactly one reopen attempt; on success it emits `AMQP_CONNECTION_RECONNECT`
once, on failure it only logs, emits no reconnect event and schedules no
further timeout — there is no repeated 1000 ms retry. -/
theorem connectionClose_single_reopen (hasErrorContext reopenSucceeds : Bool) :
    (connectionCloseHandler hasErrorContext).2 = 1000 ∧
    (connectionCloseCallback reopenSucceeds).openAttempts = 1 ∧
    (connectionCloseCallback reopenSucceeds).newTimeouts = [] ∧
    (connectionCloseCallback reopenSucceeds).emits.count .CONNECTION_RECONNECT
      = (if reopenSucceeds then 1 else 0) := by
  cases hasErrorContext <;> cases reopenSucceeds <;> decide

/-- Counterexample to C5 as stated: after a failed reopen the callback
schedules no further timeout and the whole reaction to the close event
contains exactly one open attempt — it does not "retry again after another
fixed 1000 ms delay". -/
theorem connectionClose_failed_reopen_no_retry :
    (connectionCloseCallback false).newTimeouts = [] ∧
    (connectionCloseCallback false).openAttempts = 1 := by
  decide

/-- C6: starting from the initial grant of `createReceiver`, along any
protocol-valid sequence of deliveries, open confirmations and dispositions
the available credit stays within `[0, credits]`: it never exceeds the
configured prefetch and never goes negative. -/
theorem receiver_credit_invariant (credits : Nat) (tr : List ReceiverEvent)
    (h : validTrace credits (createReceiverCredit credits) tr = true) :
    0 ≤ runReceiver credits (createReceiverCredit credits) tr ∧
      runReceiver credits (createReceiverCredit credits) tr ≤ (credits : Int) := by
  have h0 : (0 : Int) ≤ createReceiverCredit credits := by
    simp [createReceiverCredit, addCredit]
  have h1 : createReceiverCredit credits ≤ (credits : Int) := by
    simp [createReceiverCredit, addCredit]
  exact runReceiver_bounds credits tr (createReceiverCredit credits) h0 h1 h

/-- Witness for C6: prefetch 2, a valid trace of two deliveries, an open
confirmation top-up, a further delivery and a disposition. -/
theorem receiver_credit_invariant_witness :
    validTrace 2 (createReceiverCredit 2)
        [.delivery, .delivery, .receiverOpen, .delivery, .disposition] = true ∧
    0 ≤ runReceiver 2 (createReceiverCredit 2)
        [.delivery, .delivery, .receiverOpen, .delivery, .disposition] ∧
    runReceiver 2 (createReceiverCredit 2)
        [.delivery, .delivery, .receiverOpen, .delivery, .disposition]
      ≤ (2 : Int) :=
  ⟨by decide,
    (receiver_credit_invariant 2
      [.delivery, .delivery, .receiverOpen, .delivery, .disposition]
      (by decide)).1,
    (receiver_credit_invariant 2
      [.delivery, .delivery, .receiverOpen, .delivery, .disposition]
      (by decide)).2⟩

/-- C7: `createReceiver` grants initial credit exactly equal to the
configured prefetch (`addCredit(credits)` on a fresh link), and the
`receiverOpen` handler restores the credit to exactly the prefetch whenever
it has fallen below it — adding exactly the difference — and leaves it
unchanged otherwise. -/
theorem createReceiver_initial_and_topup (credits : Nat) (currentCredits : Int) :
    createReceiverCredit credits = (credits : Int) ∧
    receiverOpenHandler credits currentCredits
      = (if currentCredits < (credits : Int) then (credits : Int)
          else currentCredits) := by
  constructor
  · simp [createReceiverCredit, addCredit]
  · unfold receiverOpenHandler addCredit
    split
    · ring
    · rfl

/-- C8 (amended): `createSender` fails with the container's not-found error
exactly when no connection is registered for the resolved token, and never
creates a connection itself — on success the sender wraps precisely the
registered connection.  It does not, however, check that this connection is
in OPEN state: registration, not openness, decides the outcome (see the
counterexample). -/
theorem createSender_lookup_decides (registry : String → Option Connection)
    (options : CreateSenderOptions) :
    ((∃ s, createSender registry options = .ok s)
        ↔ (registry (getConnectionToken options.connectionName)).isSome) ∧
    ∀ c, registry (getConnectionToken options.connectionName) = some c →
      createSender registry options = .ok ⟨c⟩ := by
  constructor
  · unfold createSender moduleRefGet
    cases registry (getConnectionToken options.connectionName) <;> simp
  · intro c hc
    unfold createSender moduleRefGet
    rw [hc]

/-- Witness for C8: a registry holding a (closed) connection under the
default token; `createSender` returns a sender on exactly that connection. -/
theorem createSender_lookup_decides_witness :
    createSender (fun _ => some ⟨false⟩) {} = .ok ⟨⟨false⟩⟩ :=
  (createSender_lookup_decides (fun _ => some ⟨false⟩) {}).2 ⟨false⟩ rfl

/-- Counterexample to C8 as stated: the registered connection for the token
is not open (`isOpen = false`), so no OPEN connection exists for the token,
yet `createSender` succeeds instead of failing with the not-found error. -/
theorem createSender_no_open_state_check :
    (∃ s, createSender (fun _ => some ⟨false⟩) {} = .ok s) ∧
    (Connection.mk false).isOpen = false :=
  ⟨⟨⟨⟨false⟩⟩, rfl⟩, rfl⟩

/-- C9: `createConnection` throws `Invalid connection options: <token>` —
the message carrying the connection token — exactly when its options
argument is null/undefined; with any non-null options the promise resolves
(no such configuration error is raised, whatever the open attempts do). -/
theorem createConnection_null_options_check (openOk : Nat → Bool)
    (o : AMQPModuleOptions) :
    (createConnection none openOk).result
        = .error ("Invalid connection options: "
            ++ getConnectionTokenOfOptions none) ∧
    ∃ w, (createConnection (some o) openOk).result = .ok w := by
  refine ⟨rfl, ?_⟩
  simp only [createConnection]
  split
  · exact ⟨some ⟨true⟩, rfl⟩
  · split
    · exact ⟨none, rfl⟩
    · exact ⟨some ⟨false⟩, rfl⟩

/-- C10: for every `connectionClose` event — whether or not the event
context carries an error, which only changes the log severity — the handler
schedules a 1000 ms timeout whose callback first dispatches a synthesized
`disconnected` event (emitting `AMQP_CONNECTION_DISCONNECTED` exactly once,
as the first emission) and then performs exactly one reopen attempt. -/
theorem connectionClose_dispatch_then_one_reopen
    (hasErrorContext reopenSucceeds : Bool) :
    (connectionCloseHandler hasErrorContext).2
        = (connectionCloseHandler true).2 ∧
    (connectionCloseHandler hasErrorContext).2 = 1000 ∧
    (connectionCloseCallback reopenSucceeds).emits.head?
        = some .CONNECTION_DISCONNECTED ∧
    (connectionCloseCallback reopenSucceeds).emits.count
        .CONNECTION_DISCONNECTED = 1 ∧
    (connectionCloseCallback reopenSucceeds).openAttempts = 1 := by
  cases hasErrorContext <;> cases reopenSucceeds <;> decide

end AMQP
